import Mathlib

/-!
Verification development for the SourceMind paper-analysis workflow.

The definitions below are a shallow embedding of the Python sources:
  - `src/model_utils.py`   (model provider resolution)
  - `src/nodes.py`         (workflow nodes: loader, five analysis tasks,
                            report synthesis, review dialogue)
  - `src/graph.py`         (the LangGraph workflow wiring)
  - `src/state.py`         (the AgentState record)

External collaborators (the LLM backends, the web-search backends, the
document loader, the text splitter and the Streamlit UI/session plumbing)
are modelled as explicit oracle functions passed in as parameters; the
`callbacks` wiring (Langfuse) and the Streamlit live-display sink are pure
side channels with no influence on returned values and are omitted.
Optional Python dependencies (`langchain-anthropic`,
`langchain-text-splitters`) are modelled by an explicit `deps` flag where
their absence changes a return value, and assumed installed elsewhere.
-/

namespace SourceMind

/-! ## Model provider resolution (src/model_utils.py) -/

/-- Provider kind of a constructed chat-model object: `ChatAnthropic` or
`ChatOpenAI` (the latter also covers OpenRouter and the OpenAI-compatible
custom endpoint, which differ only in configured fields). -/
inductive ProviderKind
  | anthropic
  | openaiCompat
deriving DecidableEq, Repr

/-- The data of a constructed chat model, as passed to the constructor in
`src/model_utils.py`: provider kind, model name, optional api key, optional
base-url override, temperature (always 0 in the source). -/
structure ModelHandle where
  provider : ProviderKind
  modelName : String
  apiKey : Option String
  baseUrl : Option String
  temperature : Nat
deriving DecidableEq, Repr

/-- The process environment, as read through `os.getenv`. -/
abbrev EnvMap := String → Option String

/-- The provider strings accepted by the OpenAI-compatible branch of every
resolver in `src/model_utils.py`. -/
def supportedOpenAICompat (p : String) : Bool :=
  p = "OpenAI" || p = "OpenRouter" || p = "自定义 (OpenAI 兼容)"

/-- `get_llm` from `src/model_utils.py`.  `deps` models whether the optional
`langchain-anthropic` package is installed (its absence raises an
ImportError in the Anthropic branch).  An unrecognized provider string falls
into the final `else` branch, which returns `ChatOpenAI(model="gpt-4o")`. -/
def get_llm (deps : Bool) (env : EnvMap) : Except String ModelHandle :=
  let provider := (env "LLM_PROVIDER").getD "OpenAI"
  if provider = "Anthropic" then
    if deps then
      .ok { provider := .anthropic
            modelName := (env "ANTHROPIC_MODEL_NAME").getD "claude-3-5-sonnet-20240620"
            apiKey := env "ANTHROPIC_API_KEY"
            baseUrl := none
            temperature := 0 }
    else
      .error "langchain-anthropic is not installed."
  else if supportedOpenAICompat provider then
    .ok { provider := .openaiCompat
          modelName := (env "OPENAI_MODEL_NAME").getD "gpt-4o"
          apiKey := env "OPENAI_API_KEY"
          baseUrl := env "OPENAI_API_BASE"
          temperature := 0 }
  else
    .ok { provider := .openaiCompat
          modelName := "gpt-4o"
          apiKey := none
          baseUrl := none
          temperature := 0 }

/-- `get_translation_llm` from `src/model_utils.py`.  An absent, empty or
`"None"` `TRANSLATION_LLM_PROVIDER` falls back to `get_llm`; so does an
unrecognized provider string (the final fall-through `return get_llm()`). -/
def get_translation_llm (deps : Bool) (env : EnvMap) : Except String ModelHandle :=
  match env "TRANSLATION_LLM_PROVIDER" with
  | none => get_llm deps env
  | some provider =>
    if provider = "" || provider = "None" then get_llm deps env
    else if provider = "Anthropic" then
      if deps then
        .ok { provider := .anthropic
              modelName := (env "TRANSLATION_ANTHROPIC_MODEL_NAME").getD "claude-3-sonnet-20240229"
              apiKey := env "TRANSLATION_ANTHROPIC_API_KEY"
              baseUrl := none
              temperature := 0 }
      else
        .error "langchain-anthropic is not installed."
    else if supportedOpenAICompat provider then
      .ok { provider := .openaiCompat
            modelName := (env "TRANSLATION_OPENAI_MODEL_NAME").getD "gpt-4o"
            apiKey := env "TRANSLATION_OPENAI_API_KEY"
            baseUrl := env "TRANSLATION_OPENAI_API_BASE"
            temperature := 0 }
    else get_llm deps env

/-- `get_review_llm` from `src/model_utils.py`. -/
def get_review_llm (deps : Bool) (env : EnvMap) : Except String ModelHandle :=
  match env "REVIEW_LLM_PROVIDER" with
  | none => get_llm deps env
  | some provider =>
    if provider = "" || provider = "None" then get_llm deps env
    else if provider = "Anthropic" then
      if deps then
        .ok { provider := .anthropic
              modelName := (env "REVIEW_ANTHROPIC_MODEL_NAME").getD "claude-3-5-sonnet-20240620"
              apiKey := env "REVIEW_ANTHROPIC_API_KEY"
              baseUrl := none
              temperature := 0 }
      else
        .error "langchain-anthropic is not installed."
    else if supportedOpenAICompat provider then
      .ok { provider := .openaiCompat
            modelName := (env "REVIEW_OPENAI_MODEL_NAME").getD "gpt-4o"
            apiKey := env "REVIEW_OPENAI_API_KEY"
            baseUrl := env "REVIEW_OPENAI_API_BASE"
            temperature := 0 }
    else get_llm deps env

/-- `get_vlm_llm` from `src/model_utils.py`. -/
def get_vlm_llm (deps : Bool) (env : EnvMap) : Except String ModelHandle :=
  match env "VLM_LLM_PROVIDER" with
  | none => get_llm deps env
  | some provider =>
    if provider = "" || provider = "None" then get_llm deps env
    else if provider = "Anthropic" then
      if deps then
        .ok { provider := .anthropic
              modelName := (env "VLM_ANTHROPIC_MODEL_NAME").getD "claude-3-5-sonnet-20240620"
              apiKey := env "VLM_ANTHROPIC_API_KEY"
              baseUrl := none
              temperature := 0 }
      else
        .error "langchain-anthropic is not installed."
    else if supportedOpenAICompat provider then
      .ok { provider := .openaiCompat
            modelName := (env "VLM_OPENAI_MODEL_NAME").getD "gpt-4o"
            apiKey := env "VLM_OPENAI_API_KEY"
            baseUrl := env "VLM_OPENAI_API_BASE"
            temperature := 0 }
    else get_llm deps env

/-- `get_related_work_llm` from `src/model_utils.py`. -/
def get_related_work_llm (deps : Bool) (env : EnvMap) : Except String ModelHandle :=
  match env "RELATED_WORK_LLM_PROVIDER" with
  | none => get_llm deps env
  | some provider =>
    if provider = "" || provider = "None" then get_llm deps env
    else if provider = "Anthropic" then
      if deps then
        .ok { provider := .anthropic
              modelName := (env "RELATED_WORK_ANTHROPIC_MODEL_NAME").getD "claude-3-sonnet-20240229"
              apiKey := env "RELATED_WORK_ANTHROPIC_API_KEY"
              baseUrl := none
              temperature := 0 }
      else
        .error "langchain-anthropic is not installed."
    else if supportedOpenAICompat provider then
      .ok { provider := .openaiCompat
            modelName := (env "RELATED_WORK_OPENAI_MODEL_NAME").getD "gpt-4o"
            apiKey := env "RELATED_WORK_OPENAI_API_KEY"
            baseUrl := env "RELATED_WORK_OPENAI_API_BASE"
            temperature := 0 }
    else get_llm deps env

/-- The five model roles of the system (spec section 4.1). -/
inductive ModelRole
  | core
  | translation
  | relatedWork
  | review
  | vision
deriving DecidableEq, Repr

/-- The environment variable holding each non-core role's provider override
(`<ROLE>_LLM_PROVIDER` in `src/model_utils.py`; the core role reads
`LLM_PROVIDER`). -/
def provider_var : ModelRole → String
  | .core => "LLM_PROVIDER"
  | .translation => "TRANSLATION_LLM_PROVIDER"
  | .relatedWork => "RELATED_WORK_LLM_PROVIDER"
  | .review => "REVIEW_LLM_PROVIDER"
  | .vision => "VLM_LLM_PROVIDER"

/-- Dispatch a role to its resolver function from `src/model_utils.py`. -/
def resolve (deps : Bool) (env : EnvMap) : ModelRole → Except String ModelHandle
  | .core => get_llm deps env
  | .translation => get_translation_llm deps env
  | .relatedWork => get_related_work_llm deps env
  | .review => get_review_llm deps env
  | .vision => get_vlm_llm deps env

/-! ## The workflow state (src/state.py)

`AgentState` is a Python `TypedDict`; at run time it is a plain dict whose
keys may be absent (every node reads non-`source` fields through
`state.get(key, default)`).  Absence is modelled with `Option`; `source` is
the one field the callers always set before the run starts. -/

structure AgentState where
  source : String
  doc_content : Option String := none
  metadata : Option (List (String × String)) := none
  translation : Option String := none
  key_points : Option String := none
  experiments : Option String := none
  terms : Option String := none
  related_work_search : Option String := none
  final_report : Option String := none
  is_full_translation : Option Bool := none
  use_vlm_parsing : Option Bool := none
  figures : Option (List String) := none
  review_dialogue : Option String := none
  enable_round_table : Option Bool := none
deriving DecidableEq, Repr

/-- A partial state update as returned by a LangGraph node: a dict holding
only the keys that node writes.  A `none` field is a key the node did not
write. -/
structure StateUpdate where
  source : Option String := none
  doc_content : Option String := none
  metadata : Option (List (String × String)) := none
  translation : Option String := none
  key_points : Option String := none
  experiments : Option String := none
  terms : Option String := none
  related_work_search : Option String := none
  final_report : Option String := none
  is_full_translation : Option Bool := none
  use_vlm_parsing : Option Bool := none
  figures : Option (List String) := none
  review_dialogue : Option String := none
  enable_round_table : Option Bool := none
deriving DecidableEq, Repr

/-- Merge one written-or-absent field into the accumulated state (dict
update: a written key replaces the old value, an absent key keeps it). -/
def updField {α : Type} (new old : Option α) : Option α :=
  match new with
  | some v => some v
  | none => old

/-- LangGraph state accumulation: merge a node's partial update into the
running state (spec section 4.4, state accumulation). -/
def apply_update (s : AgentState) (u : StateUpdate) : AgentState :=
  { source := (u.source).getD s.source
    doc_content := updField u.doc_content s.doc_content
    metadata := updField u.metadata s.metadata
    translation := updField u.translation s.translation
    key_points := updField u.key_points s.key_points
    experiments := updField u.experiments s.experiments
    terms := updField u.terms s.terms
    related_work_search := updField u.related_work_search s.related_work_search
    final_report := updField u.final_report s.final_report
    is_full_translation := updField u.is_full_translation s.is_full_translation
    use_vlm_parsing := updField u.use_vlm_parsing s.use_vlm_parsing
    figures := updField u.figures s.figures
    review_dialogue := updField u.review_dialogue s.review_dialogue
    enable_round_table := updField u.enable_round_table s.enable_round_table }

/-- Field names of `AgentState`/`StateUpdate`, used to state frame
conditions (which fields a node writes). -/
inductive FieldName
  | source | doc_content | metadata | translation | key_points | experiments
  | terms | related_work_search | final_report | is_full_translation
  | use_vlm_parsing | figures | review_dialogue | enable_round_table
deriving DecidableEq, Repr

def allFields : List FieldName :=
  [.source, .doc_content, .metadata, .translation, .key_points, .experiments,
   .terms, .related_work_search, .final_report, .is_full_translation,
   .use_vlm_parsing, .figures, .review_dialogue, .enable_round_table]

/-- Whether an update writes (contains a value for) the given field. -/
def wrote (u : StateUpdate) : FieldName → Bool
  | .source => u.source.isSome
  | .doc_content => u.doc_content.isSome
  | .metadata => u.metadata.isSome
  | .translation => u.translation.isSome
  | .key_points => u.key_points.isSome
  | .experiments => u.experiments.isSome
  | .terms => u.terms.isSome
  | .related_work_search => u.related_work_search.isSome
  | .final_report => u.final_report.isSome
  | .is_full_translation => u.is_full_translation.isSome
  | .use_vlm_parsing => u.use_vlm_parsing.isSome
  | .figures => u.figures.isSome
  | .review_dialogue => u.review_dialogue.isSome
  | .enable_round_table => u.enable_round_table.isSome

/-- An update writes at most the fields in `owned`. -/
def writesOnly (u : StateUpdate) (owned : List FieldName) : Bool :=
  allFields.all (fun f => !(wrote u f) || owned.contains f)

/-! ## LLM calls

Every `chain.invoke({...})` in `src/nodes.py` renders one prompt template
with a dict of slot values and performs one model call.  A call is
identified by its prompt template (`src/prompts.py`) and the slot values it
receives; the model backend is an oracle `LLMCall → Except String String`
(`.error` models a raised exception). -/

/-- The prompt templates of `src/prompts.py` used by the workflow nodes. -/
inductive PromptId
  | translation | glossary | fullTranslation | keyPoints | experiments
  | terms | relatedWork | report
  | moderator | critic | practitioner | author | reader | simpleAuthor
deriving DecidableEq, Repr

structure LLMCall where
  prompt : PromptId
  slots : List (String × String)
deriving DecidableEq, Repr

/-- The model backend: one result (or raised exception) per call. -/
abbrev Oracle := LLMCall → Except String String

/-- A backend that never raises: every call returns `g` applied to it. -/
def pureOracle (g : LLMCall → String) : Oracle := fun c => .ok (g c)

/-- Result of a node body: either a raised exception escaping the node, or
the returned partial update together with the model calls performed. -/
abbrev NodeResult := Except String (StateUpdate × List LLMCall)

/-! ## Document loader boundary and the load node (src/nodes.py:130-138) -/

/-- `load_paper(source, use_vlm)` from `src/loader.py`, an external
collaborator: returns `(text, metadata, figures)` or raises. -/
abbrev Loader := String → Bool → Except String (String × List (String × String) × List String)

/-- `load_paper_node`.  Any exception from the loader is caught and turned
into a returned update whose `doc_content` is the error string
`"Error loading paper: " ++ msg`, with empty metadata and figures. -/
def load_paper_node (load_paper : Loader) (state : AgentState) : StateUpdate :=
  match load_paper state.source ((state.use_vlm_parsing).getD false) with
  | .ok (text, metadata, figures) =>
    { doc_content := some text, metadata := some metadata, figures := some figures }
  | .error e =>
    { doc_content := some ("Error loading paper: " ++ e), metadata := some [], figures := some [] }

/-- Python character slicing `s[:n]`, as used for every context-window
truncation in `src/nodes.py`. -/
def strTake (s : String) (n : Nat) : String := String.mk (s.toList.take n)

/-! ## Text splitting (external `RecursiveCharacterTextSplitter`)

`translate_node` in full-translation mode calls the external
`langchain_text_splitters.RecursiveCharacterTextSplitter` with
`chunk_size=4000, chunk_overlap=200`.  The splitter is an external
collaborator; it is modelled as a deterministic character splitter that
honours the two parameters: each produced chunk has at most `chunkSize`
characters, consecutive chunk starts are `chunkSize - overlap` characters
apart, so consecutive full chunks share `overlap` characters. -/

def chunkCharsAux (size stride : Nat) : Nat → List Char → List (List Char)
  | _, [] => []
  | 0, cs => [cs]
  | fuel + 1, cs =>
    if cs.length ≤ size then [cs]
    else cs.take size :: chunkCharsAux size stride fuel (cs.drop stride)

/-- Modelled from the spec: the external splitter invoked by
`translate_node` with the source's literal parameters (`chunk_size`,
`chunk_overlap`); deterministic boundary splitting into overlapping chunks. -/
def split_text (chunkSize overlap : Nat) (text : String) : List String :=
  (chunkCharsAux chunkSize (chunkSize - overlap) text.length text.toList).map List.asString

/-! ## The five analysis task nodes (src/nodes.py:140-323) -/

/-- The call made by summary-mode translation (`TRANSLATION_PROMPT`). -/
def translationCall (text : String) : LLMCall :=
  { prompt := .translation, slots := [("text", text)] }

/-- The glossary-extraction call of full-translation mode
(`GLOSSARY_PROMPT` over the first 10000 characters). -/
def glossaryCall (text : String) : LLMCall :=
  { prompt := .glossary, slots := [("text", strTake text 10000)] }

/-- One chunk-translation call of full-translation mode
(`FULL_TRANSLATION_PROMPT` with the chunk text and the shared glossary). -/
def fullTranslationCall (chunk glossary : String) : LLMCall :=
  { prompt := .fullTranslation, slots := [("text", chunk), ("glossary", glossary)] }

/-- `chain.batch(batch_inputs, ...)`: invoke every prepared call; any raised
exception aborts the whole batch (LangChain re-raises the first failure). -/
def batchInvoke (llm : Oracle) : List LLMCall → Except String (List String)
  | [] => .ok []
  | c :: cs =>
    match llm c with
    | .error e => .error e
    | .ok r =>
      match batchInvoke llm cs with
      | .error e => .error e
      | .ok rs => .ok (r :: rs)

/-- `translate_node`.  Empty `doc_content` short-circuits to a placeholder.
Full-translation mode extracts a glossary from the first 10000 characters,
splits the text with parameters 4000/200, translates every chunk with the
same glossary (exceptions caught into an error-string result), and joins
the chunk translations in order behind the glossary table.  Summary mode
performs one call over the first 100000 characters; its exceptions are not
caught (the `try` block only covers full mode). -/
def translate_node (llm : Oracle) (state : AgentState) : NodeResult :=
  let text := (state.doc_content).getD ""
  if text = "" then
    .ok ({ translation := some "No content to translate." }, [])
  else if (state.is_full_translation).getD false then
    match llm (glossaryCall text) with
    | .error e =>
      .ok ({ translation := some ("Full translation failed: " ++ e ++ ". Partial result might be available.") },
           [glossaryCall text])
    | .ok glossary =>
      let chunks := split_text 4000 200 text
      let batch_calls := chunks.map (fun chunk => fullTranslationCall chunk glossary)
      match batchInvoke llm batch_calls with
      | .error e =>
        .ok ({ translation := some ("Full translation failed: " ++ e ++ ". Partial result might be available.") },
             glossaryCall text :: batch_calls)
      | .ok translated_chunks =>
        let full_translation := String.intercalate "\n\n" translated_chunks
        let final_result :=
          "### 术语对照表 (Glossary)\n" ++ glossary ++ "\n\n---\n\n### 全文翻译\n\n" ++ full_translation
        .ok ({ translation := some final_result }, glossaryCall text :: batch_calls)
  else
    match llm (translationCall (strTake text 100000)) with
    | .ok result => .ok ({ translation := some result }, [translationCall (strTake text 100000)])
    | .error e => .error e

/-- `extract_key_points_node`: placeholder on empty content, else one
`KEY_POINTS_PROMPT` call over the first 100000 characters (uncaught). -/
def extract_key_points_node (llm : Oracle) (state : AgentState) : NodeResult :=
  let text := (state.doc_content).getD ""
  if text = "" then
    .ok ({ key_points := some "No content to analyze." }, [])
  else
    match llm { prompt := .keyPoints, slots := [("text", strTake text 100000)] } with
    | .ok result => .ok ({ key_points := some result }, [{ prompt := .keyPoints, slots := [("text", strTake text 100000)] }])
    | .error e => .error e

/-- `extract_experiments_node`: same shape with `EXPERIMENTS_PROMPT`. -/
def extract_experiments_node (llm : Oracle) (state : AgentState) : NodeResult :=
  let text := (state.doc_content).getD ""
  if text = "" then
    .ok ({ experiments := some "No content to analyze." }, [])
  else
    match llm { prompt := .experiments, slots := [("text", strTake text 100000)] } with
    | .ok result => .ok ({ experiments := some result }, [{ prompt := .experiments, slots := [("text", strTake text 100000)] }])
    | .error e => .error e

/-- `explain_terms_node`: same shape with `TERMS_PROMPT`. -/
def explain_terms_node (llm : Oracle) (state : AgentState) : NodeResult :=
  let text := (state.doc_content).getD ""
  if text = "" then
    .ok ({ terms := some "No content to analyze." }, [])
  else
    match llm { prompt := .terms, slots := [("text", strTake text 100000)] } with
    | .ok result => .ok ({ terms := some result }, [{ prompt := .terms, slots := [("text", strTake text 100000)] }])
    | .error e => .error e

/-! ## Web search boundary (src/nodes.py:29-126) and the related-work node -/

inductive Backend
  | exa | tavily | serp
deriving DecidableEq, Repr

/-- One actual query issued against a search backend. -/
structure SearchCall where
  backend : Backend
  query : String
deriving DecidableEq, Repr

/-- The search-backend environment: which API keys are present, and an
oracle per backend giving the text produced by the body of each helper's
`try` block for a query (successful formatted results as well as
exception-to-string conversions such as "... Search failed: ..."). -/
structure SearchEnv where
  exa_key : Bool
  tavily_key : Bool
  serpapi_key : Bool
  exa : String → String
  tavily : String → String
  serp : String → String

/-- `get_exa_search_results`: `None` when `EXA_API_KEY` is absent (no query
issued), else the tool result.  Returns the result plus the backend calls
actually performed. -/
def get_exa_search_results (env : SearchEnv) (query : String) :
    Option String × List SearchCall :=
  if env.exa_key then (some (env.exa query), [{ backend := .exa, query := query }])
  else (none, [])

/-- `get_tavily_search_results`: a fixed message when `TAVILY_API_KEY` is
absent (no query issued), else the tool result. -/
def get_tavily_search_results (env : SearchEnv) (query : String) :
    String × List SearchCall :=
  if env.tavily_key then (env.tavily query, [{ backend := .tavily, query := query }])
  else ("Tavily API Key not found. Cannot perform web search.", [])

/-- `get_serp_search_results`: a fixed message when `SERPAPI_API_KEY` is
absent (no query issued), else the tool result under the SerpAPI header. -/
def get_serp_search_results (env : SearchEnv) (query : String) :
    String × List SearchCall :=
  if env.serpapi_key then
    ("### SerpAPI Search Results\n" ++ env.serp query, [{ backend := .serp, query := query }])
  else ("SerpAPI Key not found. Cannot perform web search.", [])

/-- Whether `needle` occurs at the start of `hay` (on character lists). -/
def prefixChars : List Char → List Char → Bool
  | [], _ => true
  | _ :: _, [] => false
  | a :: as, b :: bs => a == b && prefixChars as bs

/-- Whether `needle` occurs anywhere in `hay` (on character lists). -/
def infixChars (needle : List Char) : List Char → Bool
  | [] => prefixChars needle []
  | b :: bs => prefixChars needle (b :: bs) || infixChars needle bs

/-- Python `needle in hay` on strings. -/
def containsSub (hay needle : String) : Bool :=
  infixChars needle.toList hay.toList

/-- The filter applied to each Exa result before it is appended to
`combined_results` (`if exa_res and "dependency missing" not in exa_res and
"Search failed" not in exa_res`). -/
def exaOk (r : Option String) : Bool :=
  match r with
  | none => false
  | some s => !(s = "") && !(containsSub s "dependency missing") && !(containsSub s "Search failed")

/-- The filter applied to each Tavily result. -/
def tavilyOk (s : String) : Bool :=
  !(s = "") && !(containsSub s "Tavily API Key not found")
    && !(containsSub s "dependency missing") && !(containsSub s "Search failed")

/-- The filter applied to each SerpAPI result. -/
def serpOk (s : String) : Bool :=
  !(s = "") && !(containsSub s "SerpAPI Key not found")
    && !(containsSub s "dependency missing") && !(containsSub s "Search failed")

/-- Result of the related-work node: raised exception, or the update plus
the model calls and the search-backend calls performed. -/
abbrev SearchNodeResult := Except String (StateUpdate × List LLMCall × List SearchCall)

/-- The English query variant built from the title. -/
def searchQueryEn (title : String) : String :=
  "analysis review of paper \x27" ++ title ++ "\x27"

/-- The localized (Chinese) query variant. -/
def searchQueryZh (title : String) : String :=
  "\x27" ++ title ++ "\x27 论文解读 深度分析 评价"

/-- The "site:github.com"-scoped query variant. -/
def githubQuery (title : String) : String :=
  "site:github.com \x27" ++ title ++ "\x27 code implementation"

/-- The backend queries actually issued for a title, in source invocation
order (three query variants against each configured backend). -/
def relatedWorkSearchLog (env : SearchEnv) (title : String) : List SearchCall :=
  (get_exa_search_results env (searchQueryEn title)).2
    ++ (get_exa_search_results env (searchQueryZh title)).2
    ++ (get_exa_search_results env (githubQuery title)).2
    ++ (get_tavily_search_results env (searchQueryEn title)).2
    ++ (get_tavily_search_results env (searchQueryZh title)).2
    ++ (get_tavily_search_results env (githubQuery title)).2
    ++ (get_serp_search_results env (searchQueryEn title)).2
    ++ (get_serp_search_results env (searchQueryZh title)).2
    ++ (get_serp_search_results env (githubQuery title)).2

/-- `combined_results`: the filtered backend results under their labelled
headers, in source append order. -/
def relatedWorkCombined (env : SearchEnv) (title : String) : List String :=
  (if exaOk (get_exa_search_results env (searchQueryEn title)).1 then
    ["### Exa Search Results (English)\n"
      ++ ((get_exa_search_results env (searchQueryEn title)).1).getD ""] else [])
  ++ (if exaOk (get_exa_search_results env (searchQueryZh title)).1 then
    ["### Exa Search Results (Chinese)\n"
      ++ ((get_exa_search_results env (searchQueryZh title)).1).getD ""] else [])
  ++ (if exaOk (get_exa_search_results env (githubQuery title)).1 then
    ["### Exa GitHub Search Results\n"
      ++ ((get_exa_search_results env (githubQuery title)).1).getD ""] else [])
  ++ (if tavilyOk (get_tavily_search_results env (searchQueryEn title)).1 then
    ["### Tavily Search Results (English)\n"
      ++ (get_tavily_search_results env (searchQueryEn title)).1] else [])
  ++ (if tavilyOk (get_tavily_search_results env (searchQueryZh title)).1 then
    ["### Tavily Search Results (Chinese)\n"
      ++ (get_tavily_search_results env (searchQueryZh title)).1] else [])
  ++ (if tavilyOk (get_tavily_search_results env (githubQuery title)).1 then
    ["### Tavily GitHub Search Results\n"
      ++ (get_tavily_search_results env (githubQuery title)).1] else [])
  ++ (if serpOk (get_serp_search_results env (searchQueryEn title)).1 then
    [((get_serp_search_results env (searchQueryEn title)).1).replace
      "### SerpAPI Search Results" "### SerpAPI Search Results (English)"] else [])
  ++ (if serpOk (get_serp_search_results env (searchQueryZh title)).1 then
    [((get_serp_search_results env (searchQueryZh title)).1).replace
      "### SerpAPI Search Results" "### SerpAPI Search Results (Chinese)"] else [])
  ++ (if serpOk (get_serp_search_results env (githubQuery title)).1 then
    [((get_serp_search_results env (githubQuery title)).1).replace
      "### SerpAPI Search Results" "### SerpAPI GitHub Search Results"] else [])

/-- The body of `related_work_search_node` from the point where a non-empty
`title` is known (src/nodes.py:244-323): build the three query variants,
query each configured backend with each, keep the results that pass the
substring filters under labelled headers, then either report missing keys /
empty results, or summarize through one `RELATED_WORK_PROMPT` call whose
failure is caught into a raw-results fallback string. -/
def relatedWorkSearchBody (env : SearchEnv) (llm : Oracle) (title : String) : SearchNodeResult :=
  let searchLog := relatedWorkSearchLog env title
  let combined_results := relatedWorkCombined env title
  let tavEn := get_tavily_search_results env (searchQueryEn title)
  if combined_results = [] then
    if !env.exa_key && !env.tavily_key && !env.serpapi_key then
      .ok ({ related_work_search := some "No search results found. Please configure Tavily, Exa, or SerpAPI Key." },
           [], searchLog)
    else
      .ok ({ related_work_search :=
               some ("Search executed but returned no results. (Tavily: " ++ strTake tavEn.1 50 ++ "...)") },
           [], searchLog)
  else
    let raw_search_results := String.intercalate "\n\n" combined_results
    let call : LLMCall :=
      { prompt := .relatedWork, slots := [("title", title), ("search_results", raw_search_results)] }
    match llm call with
    | .ok processed_results =>
      .ok ({ related_work_search := some processed_results }, [call], searchLog)
    | .error e =>
      .ok ({ related_work_search :=
               some ("Error processing search results: " ++ e ++ "\n\nRaw Results:\n" ++ raw_search_results) },
           [call], searchLog)

/-- `related_work_search_node` (src/nodes.py:230-323).  The title comes from
`metadata["Title"]`; when that is missing or empty, the first line of
`doc_content` (truncated to 100 characters) is used; when the content is
also empty, the node returns its placeholder without any model or search
call. -/
def related_work_search_node (env : SearchEnv) (llm : Oracle) (state : AgentState) : SearchNodeResult :=
  let metadata := (state.metadata).getD []
  let title := (metadata.lookup "Title").getD ""
  if title = "" then
    let text := (state.doc_content).getD ""
    if text = "" then
      .ok ({ related_work_search := some "No title or content to search for." }, [], [])
    else
      relatedWorkSearchBody env llm (strTake ((text.splitOn "\n").headD "") 100)
  else
    relatedWorkSearchBody env llm title

/-! ## Report synthesis (src/nodes.py:325-336) -/

/-- The single `REPORT_PROMPT` call of `generate_report_node`: a fixed
six-slot template, every missing task output passed as the literal
`"N/A"` (`state.get(key, "N/A")`). -/
def report_call (state : AgentState) : LLMCall :=
  { prompt := .report
    slots := [("source", state.source),
              ("translation", (state.translation).getD "N/A"),
              ("key_points", (state.key_points).getD "N/A"),
              ("experiments", (state.experiments).getD "N/A"),
              ("terms", (state.terms).getD "N/A"),
              ("related_work", (state.related_work_search).getD "N/A")] }

/-- `generate_report_node`: one synthesis call, no truncation of inputs, no
retry, no `try` block — a model failure escapes the node. -/
def generate_report_node (llm : Oracle) (state : AgentState) : NodeResult :=
  match llm (report_call state) with
  | .ok result => .ok ({ final_report := some result }, [report_call state])
  | .error e => .error e

/-!  ## Review dialogue (src/nodes.py:338-549)

Each turn of the dialogue is one model call on a persona prompt.  The
`stream_msg` calls push to the optional Streamlit live-display container
(side channel with no effect on the returned value) and are omitted.  Call
constructors below carry the exact slot payloads of the source. -/

def moderatorCall (title input_text status_description : String) : LLMCall :=
  { prompt := .moderator
    slots := [("title", title), ("input_text", input_text),
              ("status_description", status_description)] }

def criticCall (report_content input_text : String) : LLMCall :=
  { prompt := .critic
    slots := [("report_content", report_content), ("input_text", input_text)] }

def practitionerCall (report_content input_text : String) : LLMCall :=
  { prompt := .practitioner
    slots := [("report_content", report_content), ("input_text", input_text)] }

def authorCall (doc_content input_text : String) : LLMCall :=
  { prompt := .author
    slots := [("doc_content", doc_content), ("input_text", input_text)] }

def readerCall (input_text : String) : LLMCall :=
  { prompt := .reader, slots := [("input_text", input_text)] }

def simpleAuthorCall (doc_content input_text : String) : LLMCall :=
  { prompt := .simpleAuthor
    slots := [("doc_content", doc_content), ("input_text", input_text)] }

/-- Turn 1 of the round table: the Moderator opens the session. -/
def rtOpenCall (title : String) : LLMCall :=
  moderatorCall title
    ("会议开始。请简要开场，介绍论文《" ++ title
      ++ "》的核心贡献（基于摘要），并介绍嘉宾：论文作者、方法论专家（评审员 A）和应用实践者（评审员 B）。")
    "会议刚开始，需要进行开场介绍。"

/-- Turn 2: the Critic poses the round-1 methodology question. -/
def rtCriticQ1Call (report : String) : LLMCall :=
  criticCall (strTake report 10000)
    ("主持人邀请你（方法论专家）发言。请基于研读报告，针对论文的理论推导、算法或实验严谨性提出一个尖锐的问题。\n\n研读报告片段：\n"
      ++ strTake report 10000)

/-- Turn 3: the Author answers the round-1 question. -/
def rtAuthorA1Call (doc_content critic_q : String) : LLMCall :=
  authorCall (strTake doc_content 50000)
    ("方法论专家提出了质疑：" ++ critic_q ++ "\n请基于论文内容进行有力反驳或解释。")

/-- Turn 4: the Practitioner poses the round-2 practicality question. -/
def rtPractitionerQCall (report : String) : LLMCall :=
  practitionerCall (strTake report 10000)
    ("主持人邀请你（应用实践者）发言。作者刚刚回答了方法论问题。请基于你的视角，针对落地的成本、难度或实际价值提出质疑。\n\n研读报告片段：\n"
      ++ strTake report 10000)

/-- Turn 5: the Author answers the round-2 question. -/
def rtAuthorA2Call (doc_content practitioner_q : String) : LLMCall :=
  authorCall (strTake doc_content 50000)
    ("应用实践者提出了质疑：" ++ practitioner_q ++ "\n请基于论文内容进行回应，重点谈实际应用价值和成本。")

/-- Turn 6: the Moderator summarizes and selects the follow-up angle. -/
def rtModFollowupCall (title critic_q practitioner_q : String) : LLMCall :=
  moderatorCall title
    ("前两轮已结束。\n方法论专家问了：" ++ critic_q ++ "\n应用实践者问了：" ++ practitioner_q
      ++ "\n\n请总结争议点，并指定其中一位评审员（专家或实践者）进行深入追问。")
    "进入自由辩论环节，需要指定一位评审员追问。"

/-- Turn 7: the Critic poses the final follow-up using both prior answers. -/
def rtCriticQ2Call (report author_a1 author_a2 : String) : LLMCall :=
  criticCall (strTake report 10000)
    ("主持人让你追问。作者之前的回答如下：\n1. " ++ author_a1 ++ "\n2. " ++ author_a2
      ++ "\n\n请抓住其中一个逻辑漏洞或模糊点，进行终极追问。")

/-- Turn 8: the Author gives the final response. -/
def rtAuthorA3Call (doc_content critic_q2 : String) : LLMCall :=
  authorCall (strTake doc_content 50000)
    ("方法论专家进行了追问：" ++ critic_q2 ++ "\n这是最后的回应机会，请做出精彩的总结性回答。")

/-- Turn 9: the Moderator closes with the multi-axis verdict. -/
def rtCloseCall (title author_a3 : String) : LLMCall :=
  moderatorCall title
    ("辩论结束。作者最后的回答是：" ++ author_a3
      ++ "\n\n请综合各方观点，对论文进行多维度技术总结（如创新点、工程可行性、算法完备性），并给出最终的“技术推荐等级”（如：强烈推荐、值得尝试、仅供参考）。")
    "会议结束，需要进行总结和打分。"

/-- The multi-agent round-table branch of `review_dialogue_node`
(src/nodes.py:368-469): nine sequential turns, the transcript entries
labelled with the fixed persona labels.  Returns the `dialogue_history`
entries in order plus the calls performed; any raised model exception
escapes (no `try` block in the source). -/
def roundTableDialogue (llm : Oracle) (title report doc_content : String) :
    Except String (List String × List LLMCall) :=
  match llm (rtOpenCall title) with
  | .error e => .error e
  | .ok moderator_open =>
    match llm (rtCriticQ1Call report) with
    | .error e => .error e
    | .ok critic_q =>
      match llm (rtAuthorA1Call doc_content critic_q) with
      | .error e => .error e
      | .ok author_a1 =>
        match llm (rtPractitionerQCall report) with
        | .error e => .error e
        | .ok practitioner_q =>
          match llm (rtAuthorA2Call doc_content practitioner_q) with
          | .error e => .error e
          | .ok author_a2 =>
            match llm (rtModFollowupCall title critic_q practitioner_q) with
            | .error e => .error e
            | .ok moderator_followup_inst =>
              match llm (rtCriticQ2Call report author_a1 author_a2) with
              | .error e => .error e
              | .ok critic_q2 =>
                match llm (rtAuthorA3Call doc_content critic_q2) with
                | .error e => .error e
                | .ok author_a3 =>
                  match llm (rtCloseCall title author_a3) with
                  | .error e => .error e
                  | .ok moderator_close =>
                    .ok (["**🎓 主持人 (Moderator):**\n" ++ moderator_open,
                          "**⚔️ 方法论专家 (Critic):**\n" ++ critic_q,
                          "**🛡️ 论文作者 (Author):**\n" ++ author_a1,
                          "**🛠️ 应用实践者 (Practitioner):**\n" ++ practitioner_q,
                          "**🛡️ 论文作者 (Author):**\n" ++ author_a2,
                          "**🎓 主持人 (Moderator):**\n" ++ moderator_followup_inst,
                          "**⚔️ 方法论专家 (Critic - 追问):**\n" ++ critic_q2,
                          "**🛡️ 论文作者 (Author):**\n" ++ author_a3,
                          "**🎓 主持人 (Moderator - 总结):**\n" ++ moderator_close],
                         [rtOpenCall title,
                          rtCriticQ1Call report,
                          rtAuthorA1Call doc_content critic_q,
                          rtPractitionerQCall report,
                          rtAuthorA2Call doc_content practitioner_q,
                          rtModFollowupCall title critic_q practitioner_q,
                          rtCriticQ2Call report author_a1 author_a2,
                          rtAuthorA3Call doc_content critic_q2,
                          rtCloseCall title author_a3])

/-- Reader question of simple round 1 (seeded by the report). -/
def sdReaderQ1Call (report : String) : LLMCall :=
  readerCall
    ("我已经阅读了这份关于论文的报告。请基于报告内容，提出你最想问作者的一个核心问题，或者指出你觉得最难理解的一个概念。\n\n报告内容：\n"
      ++ strTake report 10000)

/-- Reader follow-up of simple round 2 (seeded by the prior answer). -/
def sdReaderQ2Call (author_a1 : String) : LLMCall :=
  readerCall ("作者刚刚回答了你的第一个问题。\n作者回答：" ++ author_a1 ++ "\n\n请基于此追问一个更深入或具体的问题。")

/-- Reader follow-up of simple round 3. -/
def sdReaderQ3Call (author_a2 : String) : LLMCall :=
  readerCall ("作者刚刚回答了你的第二个问题。\n作者回答：" ++ author_a2
    ++ "\n\n请基于此继续追问，或者询问该研究的局限性/应用场景。")

/-- Reader follow-up of simple round 4. -/
def sdReaderQ4Call (author_a3 : String) : LLMCall :=
  readerCall ("作者刚刚回答了你的第三个问题。\n作者回答：" ++ author_a3
    ++ "\n\n请基于此继续追问，例如关于未来发展方向或者潜在的缺陷。")

/-- Reader closing self-rating of simple round 5. -/
def sdReaderFeedbackCall (author_a4 : String) : LLMCall :=
  readerCall ("作者已经回答了你的所有问题。\n作者回答：" ++ author_a4
    ++ "\n\n请总结你对这篇论文的理解，并对这份报告的易读性（1-10分）和论文的启发性（1-10分）进行打分和点评。")

/-- Author answer in the simple dialogue for a given reader question. -/
def sdAuthorCall (doc_content reader_q : String) (roundLabel : String) : LLMCall :=
  simpleAuthorCall (strTake doc_content 50000) (roundLabel ++ reader_q)

/-- The fallback simple Reader-Author branch of `review_dialogue_node`
(src/nodes.py:471-544): four question/answer rounds plus the reader's
closing feedback — nine turns. -/
def simpleDialogue (llm : Oracle) (report doc_content : String) :
    Except String (List String × List LLMCall) :=
  match llm (sdReaderQ1Call report) with
  | .error e => .error e
  | .ok reader_q1 =>
    match llm (sdAuthorCall doc_content reader_q1 "读者提问：") with
    | .error e => .error e
    | .ok author_a1 =>
      match llm (sdReaderQ2Call author_a1) with
      | .error e => .error e
      | .ok reader_q2 =>
        match llm (sdAuthorCall doc_content reader_q2 "读者追问：") with
        | .error e => .error e
        | .ok author_a2 =>
          match llm (sdReaderQ3Call author_a2) with
          | .error e => .error e
          | .ok reader_q3 =>
            match llm (sdAuthorCall doc_content reader_q3 "读者追问：") with
            | .error e => .error e
            | .ok author_a3 =>
              match llm (sdReaderQ4Call author_a3) with
              | .error e => .error e
              | .ok reader_q4 =>
                match llm (sdAuthorCall doc_content reader_q4 "读者追问：") with
                | .error e => .error e
                | .ok author_a4 =>
                  match llm (sdReaderFeedbackCall author_a4) with
                  | .error e => .error e
                  | .ok reader_feedback =>
                    .ok (["**👤 Reader (Q1):**\n" ++ reader_q1,
                          "**🎓 Author (A1):**\n" ++ author_a1,
                          "**👤 Reader (Q2):**\n" ++ reader_q2,
                          "**🎓 Author (A2):**\n" ++ author_a2,
                          "**👤 Reader (Q3):**\n" ++ reader_q3,
                          "**🎓 Author (A3):**\n" ++ author_a3,
                          "**👤 Reader (Q4):**\n" ++ reader_q4,
                          "**🎓 Author (A4):**\n" ++ author_a4,
                          "**👤 Reader (Final Feedback):**\n" ++ reader_feedback],
                         [sdReaderQ1Call report,
                          sdAuthorCall doc_content reader_q1 "读者提问：",
                          sdReaderQ2Call author_a1,
                          sdAuthorCall doc_content reader_q2 "读者追问：",
                          sdReaderQ3Call author_a2,
                          sdAuthorCall doc_content reader_q3 "读者追问：",
                          sdReaderQ4Call author_a3,
                          sdAuthorCall doc_content reader_q4 "读者追问：",
                          sdReaderFeedbackCall author_a4])

/-- `review_dialogue_node` (src/nodes.py:338-549).  An empty `final_report`
short-circuits to the fixed cannot-review message with zero model calls;
otherwise the branch selected by `state.get("enable_round_table", True)`
runs and the collected `dialogue_history` is joined with the
`"\n\n---\n\n"` separator. -/
def review_dialogue_node (llm : Oracle) (state : AgentState) : NodeResult :=
  let report := (state.final_report).getD ""
  let doc_content := (state.doc_content).getD ""
  let metadata := (state.metadata).getD []
  let title := (metadata.lookup "Title").getD "Untitled Paper"
  let enable_round_table := (state.enable_round_table).getD true
  if report = "" then
    .ok ({ review_dialogue := some "无法进行对话评审：未生成最终报告。" }, [])
  else
    match (if enable_round_table then roundTableDialogue llm title report doc_content
           else simpleDialogue llm report doc_content) with
    | .error e => .error e
    | .ok (dialogue_history, calls) =>
      .ok ({ review_dialogue := some (String.intercalate "\n\n---\n\n" dialogue_history) }, calls)

/-! ## The workflow graph (src/graph.py) -/

/-- The eight nodes registered by `create_graph` via `workflow.add_node`. -/
inductive NodeName
  | load_paper | translate | extract_key_points | extract_experiments
  | explain_terms | related_work_search | generate_report | review_dialogue
deriving DecidableEq, Repr

def allNodes : List NodeName :=
  [.load_paper, .translate, .extract_key_points, .extract_experiments,
   .explain_terms, .related_work_search, .generate_report, .review_dialogue]

/-- The edges added by `create_graph` via `workflow.add_edge` (the entry
point is `load_paper`; the edge to `END` is the absence of successors of
`review_dialogue`). -/
def graph_edges : List (NodeName × NodeName) :=
  [(.load_paper, .translate),
   (.load_paper, .extract_key_points),
   (.load_paper, .extract_experiments),
   (.load_paper, .explain_terms),
   (.load_paper, .related_work_search),
   (.translate, .generate_report),
   (.extract_key_points, .generate_report),
   (.extract_experiments, .generate_report),
   (.explain_terms, .generate_report),
   (.related_work_search, .generate_report),
   (.generate_report, .review_dialogue)]

/-- The five fan-out analysis tasks between `load_paper` and
`generate_report`. -/
def fanout_tasks : List NodeName :=
  [.translate, .extract_key_points, .extract_experiments, .explain_terms,
   .related_work_search]

/-- The completion-event sequences the engine may emit for a successful run
(the dependency-barrier contract of spec section 4.4 over the edge list of
`create_graph`): one completion event per node, each node completed only
after every node with an edge into it.  Tasks within the fan-out may
complete in any interleaving. -/
def validTrace (tr : List NodeName) : Prop :=
  tr.Nodup ∧ (∀ n ∈ allNodes, n ∈ tr) ∧
    ∀ e ∈ graph_edges, tr.indexOf e.1 < tr.indexOf e.2

instance (tr : List NodeName) : Decidable (validTrace tr) := by
  unfold validTrace; infer_instance

/-! ## Caller-side constants (src/app.py, src/main.py) -/

/-- The default value of the round-table checkbox in the interactive caller
(`st.checkbox("开启圆桌讨论 (Round Table Discussion)", ..., value=False)`,
src/app.py:217). -/
def app_enable_round_table_default : Bool := false

/-- The initial state built by the callers before any node runs: `source`
plus the three configuration flags; no node-owned field is present. -/
def init_state (source : String)
    (is_full_translation use_vlm_parsing enable_round_table : Option Bool) : AgentState :=
  { source := source
    is_full_translation := is_full_translation
    use_vlm_parsing := use_vlm_parsing
    enable_round_table := enable_round_table }

/-! ## Concrete fixtures used by counterexamples and witnesses -/

/-- A loader that always raises (e.g. an unresolvable Arxiv id). -/
def failing_loader : Loader := fun _ _ => .error "not found"

/-- Initial caller state for the degraded-load scenario. -/
def c1_init : AgentState := init_state "https://arxiv.org/abs/9999.99999" none none none

/-- A model backend that never raises and answers every call with "OUT". -/
def oOut : Oracle := pureOracle (fun _ => "OUT")

/-- Environment configuring the unsupported provider kind "Gemini" for the
core role. -/
def envGemini : EnvMap := fun v => if v = "LLM_PROVIDER" then some "Gemini" else none

/-- Environment configuring the unsupported provider kind "Gemini" for the
translation role only. -/
def envGeminiTranslation : EnvMap :=
  fun v => if v = "TRANSLATION_LLM_PROVIDER" then some "Gemini" else none

/-- A search environment with no API key configured. -/
def envNoKeys : SearchEnv :=
  { exa_key := false, tavily_key := false, serpapi_key := false
    exa := fun _ => "", tavily := fun _ => "", serp := fun _ => "" }

/-- A search environment with only the Exa key configured, whose backend
returns a fixed result list. -/
def envExaOnly : SearchEnv :=
  { exa_key := true, tavily_key := false, serpapi_key := false
    exa := fun _ => "- **link**: result", tavily := fun _ => "", serp := fun _ => "" }

/-- Decidable equality of node results (component-wise). -/
instance {ε α : Type} [DecidableEq ε] [DecidableEq α] : DecidableEq (Except ε α) := fun x y =>
  match x, y with
  | .ok a, .ok b =>
    if h : a = b then .isTrue (h ▸ rfl) else .isFalse fun hc => h (Except.ok.inj hc)
  | .error a, .error b =>
    if h : a = b then .isTrue (h ▸ rfl) else .isFalse fun hc => h (Except.error.inj hc)
  | .ok _, .error _ => .isFalse fun hc => Except.noConfusion hc
  | .error _, .ok _ => .isFalse fun hc => Except.noConfusion hc

/-- A state whose document content is empty but whose metadata carries a
non-empty title (as left by a loader that parsed metadata but no text). -/
def c2_state : AgentState :=
  { source := "paper.pdf", doc_content := some "", metadata := some [("Title", "X")] }

/-- A state carrying a non-empty final report, as seen by the dialogue
node. -/
def c7_state : AgentState :=
  { source := "paper.pdf", doc_content := some "paper text",
    metadata := some [("Title", "X")], final_report := some "REPORT",
    enable_round_table := some true }

/-- The same state with the round-table flag left absent. -/
def c10_state : AgentState :=
  { source := "paper.pdf", doc_content := some "paper text",
    metadata := some [("Title", "X")], final_report := some "REPORT" }

/-- A short document for the full-translation witness. -/
def c4_state : AgentState :=
  { source := "paper.pdf", doc_content := some "hello world",
    is_full_translation := some true }

/-- The declaration-order completion trace of the workflow. -/
def trace0 : List NodeName :=
  [.load_paper, .translate, .extract_key_points, .extract_experiments,
   .explain_terms, .related_work_search, .generate_report, .review_dialogue]

/-- A completion trace with a different interleaving of the five fan-out
tasks. -/
def trace1 : List NodeName :=
  [.load_paper, .related_work_search, .explain_terms, .translate,
   .extract_experiments, .extract_key_points, .generate_report, .review_dialogue]

/-! ## Claim theorems -/

/-- C5: for every non-core model role (translation, related-work, review,
vision) whose provider is unconfigured (variable absent, empty, or the
string "None"), the resolver returns a model handle identical to the one
returned for the core role. -/
theorem resolver_fallback_to_core (deps : Bool) (env : EnvMap) (role : ModelRole)
    (hrole : role ≠ .core)
    (hcfg : env (provider_var role) = none ∨ env (provider_var role) = some ""
      ∨ env (provider_var role) = some "None") :
    resolve deps env role = resolve deps env .core := by
  cases role with
  | core => exact absurd rfl hrole
  | translation =>
    simp only [provider_var] at hcfg
    simp only [resolve]
    unfold get_translation_llm
    rcases hcfg with h | h | h <;> rw [h] <;> simp
  | relatedWork =>
    simp only [provider_var] at hcfg
    simp only [resolve]
    unfold get_related_work_llm
    rcases hcfg with h | h | h <;> rw [h] <;> simp
  | review =>
    simp only [provider_var] at hcfg
    simp only [resolve]
    unfold get_review_llm
    rcases hcfg with h | h | h <;> rw [h] <;> simp
  | vision =>
    simp only [provider_var] at hcfg
    simp only [resolve]
    unfold get_vlm_llm
    rcases hcfg with h | h | h <;> rw [h] <;> simp

/-- Witness for C5 at a concrete input: with an entirely empty environment
the translation role resolves to the same handle as the core role. -/
theorem resolver_fallback_to_core_witness :
    ModelRole.translation ≠ ModelRole.core
    ∧ (fun _ => none : EnvMap) (provider_var .translation) = none
    ∧ resolve true (fun _ => none) .translation = resolve true (fun _ => none) .core :=
  ⟨by decide, rfl,
   resolver_fallback_to_core true (fun _ => none) .translation (by decide) (Or.inl rfl)⟩

/-- C6 counterexample: with the unsupported provider kind "Gemini"
configured, resolution does not fail — the core resolver succeeds with the
default `ChatOpenAI(model="gpt-4o")` handle, and a role resolver with an
unsupported kind silently falls back to the core resolver. -/
theorem unsupported_provider_no_error_counterexample :
    get_llm true envGemini
      = .ok { provider := .openaiCompat, modelName := "gpt-4o", apiKey := none,
              baseUrl := none, temperature := 0 }
    ∧ (get_llm true envGemini).isOk = true
    ∧ get_translation_llm true envGeminiTranslation = get_llm true envGeminiTranslation :=
  ⟨rfl, rfl, rfl⟩

/-- C6 amended: a configured provider kind outside the supported set is not
reported as an error at resolution time; the core resolver silently returns
the default handle `ChatOpenAI(model="gpt-4o")`, and every non-core role
resolver configured with such a kind falls through to the core resolver. -/
theorem unsupported_provider_fallback (deps : Bool) (env : EnvMap) (p : String)
    (role : ModelRole) (h1 : p ≠ "Anthropic") (h2 : supportedOpenAICompat p = false) :
    (env "LLM_PROVIDER" = some p →
      get_llm deps env
        = .ok { provider := .openaiCompat, modelName := "gpt-4o", apiKey := none,
                baseUrl := none, temperature := 0 })
    ∧ (role ≠ .core → env (provider_var role) = some p →
      resolve deps env role = resolve deps env .core) := by
  constructor
  · intro hp
    unfold get_llm
    simp only [hp, Option.getD_some]
    rw [if_neg h1]
    rw [if_neg (by simp [h2])]
  · intro hrole hp
    cases role with
    | core => exact absurd rfl hrole
    | translation =>
      simp only [provider_var] at hp
      simp only [resolve]
      unfold get_translation_llm
      rw [hp]
      by_cases hp0 : p = "" <;> by_cases hpn : p = "None" <;>
        simp [hp0, hpn, h1, h2]
    | relatedWork =>
      simp only [provider_var] at hp
      simp only [resolve]
      unfold get_related_work_llm
      rw [hp]
      by_cases hp0 : p = "" <;> by_cases hpn : p = "None" <;>
        simp [hp0, hpn, h1, h2]
    | review =>
      simp only [provider_var] at hp
      simp only [resolve]
      unfold get_review_llm
      rw [hp]
      by_cases hp0 : p = "" <;> by_cases hpn : p = "None" <;>
        simp [hp0, hpn, h1, h2]
    | vision =>
      simp only [provider_var] at hp
      simp only [resolve]
      unfold get_vlm_llm
      rw [hp]
      by_cases hp0 : p = "" <;> by_cases hpn : p = "None" <;>
        simp [hp0, hpn, h1, h2]

/-- Witness for the amended C6 at the concrete provider kind "Gemini". -/
theorem unsupported_provider_fallback_witness :
    get_llm true envGemini
      = .ok { provider := .openaiCompat, modelName := "gpt-4o", apiKey := none,
              baseUrl := none, temperature := 0 }
    ∧ resolve true envGeminiTranslation .translation = resolve true envGeminiTranslation .core :=
  ⟨(unsupported_provider_fallback true envGemini "Gemini" .translation (by decide) (by decide)).1 rfl,
   (unsupported_provider_fallback true envGeminiTranslation "Gemini" .translation
      (by decide) (by decide)).2 (by decide) rfl⟩

/-- C8: the report synthesizer always issues exactly one call on a fixed
six-slot template in which every missing task output is passed as the
literal string "N/A"; there is no retry, and a model failure escapes the
node unchanged. -/
theorem report_na_template_and_propagation (llm : Oracle) (s : AgentState) :
    (report_call s).slots
      = [("source", s.source),
         ("translation", (s.translation).getD "N/A"),
         ("key_points", (s.key_points).getD "N/A"),
         ("experiments", (s.experiments).getD "N/A"),
         ("terms", (s.terms).getD "N/A"),
         ("related_work", (s.related_work_search).getD "N/A")]
    ∧ (s.translation = none ∧ s.key_points = none ∧ s.experiments = none
        ∧ s.terms = none ∧ s.related_work_search = none →
        ((report_call s).slots.map Prod.snd)
          = [s.source, "N/A", "N/A", "N/A", "N/A", "N/A"])
    ∧ (∀ e, llm (report_call s) = .error e → generate_report_node llm s = .error e)
    ∧ (∀ r, llm (report_call s) = .ok r →
        generate_report_node llm s = .ok ({ final_report := some r }, [report_call s])) := by
  refine ⟨rfl, ?_, ?_, ?_⟩
  · rintro ⟨h1, h2, h3, h4, h5⟩
    simp [report_call, h1, h2, h3, h4, h5]
  · intro e he
    unfold generate_report_node
    rw [he]
  · intro r hr
    unfold generate_report_node
    rw [hr]

/-- Witness for C8: with no task output present every slot is "N/A", and a
raised model call escapes the node as the node's own failure. -/
theorem report_na_template_witness :
    ((report_call (init_state "s" none none none)).slots.map Prod.snd)
      = ["s", "N/A", "N/A", "N/A", "N/A", "N/A"]
    ∧ generate_report_node (fun _ => .error "boom") (init_state "s" none none none)
      = .error "boom" :=
  ⟨(report_na_template_and_propagation (fun _ => .error "boom")
      (init_state "s" none none none)).2.1 ⟨rfl, rfl, rfl, rfl, rfl⟩,
   (report_na_template_and_propagation (fun _ => .error "boom")
      (init_state "s" none none none)).2.2.1 "boom" rfl⟩

/-- C2 counterexample: the claim fails for the related-work node.  With
empty `docContent` but a non-empty metadata title and a configured Exa
backend, the node does not return its "no content" placeholder and it
issues three search-backend calls plus one model call. -/
theorem empty_content_short_circuit_counterexample :
    ((c2_state.doc_content).getD "" = "")
    ∧ related_work_search_node envExaOnly oOut c2_state
        = .ok ({ related_work_search := some "OUT" },
               [{ prompt := .relatedWork,
                  slots := [("title", "X"),
                            ("search_results",
                             "### Exa Search Results (English)\n- **link**: result\n\n"
                               ++ "### Exa Search Results (Chinese)\n- **link**: result\n\n"
                               ++ "### Exa GitHub Search Results\n- **link**: result")] }],
               [{ backend := .exa, query := "analysis review of paper \x27X\x27" },
                { backend := .exa, query := "\x27X\x27 论文解读 深度分析 评价" },
                { backend := .exa, query := "site:github.com \x27X\x27 code implementation" }])
    ∧ related_work_search_node envExaOnly oOut c2_state
        ≠ .ok ({ related_work_search := some "No title or content to search for." }, [], []) :=
  ⟨rfl, by decide, by decide⟩

/-- C2 amended: with empty `docContent`, each of the four text tasks
(translate, key points, experiments, terms) returns its fixed "no content"
placeholder with zero model calls; the related-work node does so — with
zero model calls and zero search-backend calls — only when the metadata
title is also absent or empty (with a non-empty title it proceeds to
search despite the empty content). -/
theorem empty_content_short_circuit (env : SearchEnv) (llm : Oracle) (s : AgentState)
    (hdoc : (s.doc_content).getD "" = "") :
    translate_node llm s = .ok ({ translation := some "No content to translate." }, [])
    ∧ extract_key_points_node llm s
        = .ok ({ key_points := some "No content to analyze." }, [])
    ∧ extract_experiments_node llm s
        = .ok ({ experiments := some "No content to analyze." }, [])
    ∧ explain_terms_node llm s = .ok ({ terms := some "No content to analyze." }, [])
    ∧ ((((s.metadata).getD []).lookup "Title").getD "" = "" →
        related_work_search_node env llm s
          = .ok ({ related_work_search := some "No title or content to search for." },
                 [], [])) := by
  refine ⟨?_, ?_, ?_, ?_, ?_⟩
  · simp [translate_node, hdoc]
  · simp [extract_key_points_node, hdoc]
  · simp [extract_experiments_node, hdoc]
  · simp [explain_terms_node, hdoc]
  · intro ht
    simp [related_work_search_node, ht, hdoc]

/-- Witness for the amended C2: a state with empty content and no metadata
short-circuits all five task nodes with zero calls. -/
theorem empty_content_short_circuit_witness :
    ((init_state "s" none none none).doc_content).getD "" = ""
    ∧ translate_node oOut (init_state "s" none none none)
        = .ok ({ translation := some "No content to translate." }, [])
    ∧ related_work_search_node envNoKeys oOut (init_state "s" none none none)
        = .ok ({ related_work_search := some "No title or content to search for." }, [], []) :=
  ⟨rfl,
   (empty_content_short_circuit envNoKeys oOut (init_state "s" none none none) rfl).1,
   (empty_content_short_circuit envNoKeys oOut (init_state "s" none none none) rfl).2.2.2.2 rfl⟩

/-- C1 counterexample: when the loader raises, `load_paper_node` sets
`doc_content` to the non-empty error string "Error loading paper: ..."
rather than the empty string, and the downstream translate node does not
short-circuit — it issues a model call on the error text instead of
returning its "no content" placeholder. -/
theorem load_failure_empty_content_counterexample :
    (load_paper_node failing_loader c1_init).doc_content
      = some "Error loading paper: not found"
    ∧ (load_paper_node failing_loader c1_init).doc_content ≠ some ""
    ∧ translate_node oOut (apply_update c1_init (load_paper_node failing_loader c1_init))
        = .ok ({ translation := some "OUT" },
               [translationCall "Error loading paper: not found"])
    ∧ translate_node oOut (apply_update c1_init (load_paper_node failing_loader c1_init))
        ≠ .ok ({ translation := some "No content to translate." }, []) :=
  ⟨rfl, by decide, by decide, by decide⟩

/-- C1 amended: an unrecoverable loader error is caught (no exception
leaves the load node) and degrades the state to `doc_content = "Error
loading paper: " ++ msg` — a non-empty error string, not the empty string —
with empty metadata and empty figures.  Because the degraded content is
non-empty, the five downstream task nodes do not short-circuit: each text
task issues its model call on the error text, and the related-work node
proceeds past its "no title or content" guard.  (The workflow still reaches
`synthesize` and `dialogue`: see the trace theorem for C3.) -/
theorem load_failure_degrades_state (loader : Loader) (s : AgentState) (e : String)
    (g : LLMCall → String)
    (hload : loader s.source ((s.use_vlm_parsing).getD false) = .error e)
    (hmode : (s.is_full_translation).getD false = false) :
    load_paper_node loader s
      = { doc_content := some ("Error loading paper: " ++ e),
          metadata := some [], figures := some [] }
    ∧ ("Error loading paper: " ++ e) ≠ ""
    ∧ (let s2 := apply_update s (load_paper_node loader s)
       let errText := "Error loading paper: " ++ e
       translate_node (pureOracle g) s2
         = .ok ({ translation := some (g (translationCall (strTake errText 100000))) },
                [translationCall (strTake errText 100000)])
       ∧ extract_key_points_node (pureOracle g) s2
         = .ok ({ key_points := some (g { prompt := .keyPoints, slots := [("text", strTake errText 100000)] }) },
                [{ prompt := .keyPoints, slots := [("text", strTake errText 100000)] }])
       ∧ extract_experiments_node (pureOracle g) s2
         = .ok ({ experiments := some (g { prompt := .experiments, slots := [("text", strTake errText 100000)] }) },
                [{ prompt := .experiments, slots := [("text", strTake errText 100000)] }])
       ∧ explain_terms_node (pureOracle g) s2
         = .ok ({ terms := some (g { prompt := .terms, slots := [("text", strTake errText 100000)] }) },
                [{ prompt := .terms, slots := [("text", strTake errText 100000)] }])
       ∧ related_work_search_node envNoKeys (pureOracle g) s2
         ≠ .ok ({ related_work_search := some "No title or content to search for." }, [], [])) := by
  have hupd : load_paper_node loader s
      = { doc_content := some ("Error loading paper: " ++ e),
          metadata := some [], figures := some [] } := by
    unfold load_paper_node
    rw [hload]
  have hne : ("Error loading paper: " ++ e) ≠ "" := by
    intro h
    have hlen := congrArg String.length h
    rw [String.length_append] at hlen
    have h21 : ("Error loading paper: ").length = 21 := by decide
    have h0 : ("" : String).length = 0 := by decide
    rw [h21, h0] at hlen
    omega
  refine ⟨hupd, hne, ?_⟩
  have hdoc2 : (apply_update s (load_paper_node loader s)).doc_content
      = some ("Error loading paper: " ++ e) := by rw [hupd]; rfl
  have hmeta2 : (apply_update s (load_paper_node loader s)).metadata = some [] := by
    rw [hupd]; rfl
  have hfull2 : (apply_update s (load_paper_node loader s)).is_full_translation
      = s.is_full_translation := by rw [hupd]; rfl
  refine ⟨?_, ?_, ?_, ?_, ?_⟩
  · unfold translate_node
    rw [hdoc2]
    simp only [Option.getD_some]
    rw [if_neg hne, hfull2, hmode]
    simp [pureOracle]
  · unfold extract_key_points_node
    rw [hdoc2]
    simp only [Option.getD_some]
    rw [if_neg hne]
    simp [pureOracle]
  · unfold extract_experiments_node
    rw [hdoc2]
    simp only [Option.getD_some]
    rw [if_neg hne]
    simp [pureOracle]
  · unfold explain_terms_node
    rw [hdoc2]
    simp only [Option.getD_some]
    rw [if_neg hne]
    simp [pureOracle]
  · unfold related_work_search_node
    rw [hdoc2, hmeta2]
    simp only [Option.getD_some, List.lookup, Option.getD_none]
    rw [if_pos trivial, if_neg hne]
    unfold relatedWorkSearchBody
    have ht : tavilyOk "Tavily API Key not found. Cannot perform web search." = false := by
      decide
    have hsp : serpOk "SerpAPI Key not found. Cannot perform web search." = false := by
      decide
    simp [envNoKeys, relatedWorkCombined, relatedWorkSearchLog, searchQueryEn,
      searchQueryZh, githubQuery, get_exa_search_results, get_tavily_search_results,
      get_serp_search_results, exaOk, ht, hsp]

/-- Witness for the amended C1 at the concrete failing source. -/
theorem load_failure_degrades_state_witness :
    failing_loader c1_init.source ((c1_init.use_vlm_parsing).getD false) = .error "not found"
    ∧ (c1_init.is_full_translation).getD false = false
    ∧ load_paper_node failing_loader c1_init
      = { doc_content := some ("Error loading paper: " ++ "not found"),
          metadata := some [], figures := some [] } :=
  ⟨rfl, rfl,
   (load_failure_degrades_state failing_loader c1_init "not found" (fun _ => "OUT")
      rfl rfl).1⟩

/-- Helper: whenever the final report is non-empty and the round-table
branch is selected (`state.get("enable_round_table", True)` is true), the
dialogue node under a non-raising model backend returns exactly the
nine-utterance round-table transcript and its nine persona calls in
order. -/
theorem review_dialogue_roundtable_spec (g : LLMCall → String) (s : AgentState) (r : String)
    (hrep : s.final_report = some r) (hne : r ≠ "")
    (hrt : (s.enable_round_table).getD true = true) :
    (let title := (((s.metadata).getD []).lookup "Title").getD "Untitled Paper"
     let doc := (s.doc_content).getD ""
     let m1 := g (rtOpenCall title)
     let q1 := g (rtCriticQ1Call r)
     let a1 := g (rtAuthorA1Call doc q1)
     let q2 := g (rtPractitionerQCall r)
     let a2 := g (rtAuthorA2Call doc q2)
     let m2 := g (rtModFollowupCall title q1 q2)
     let q3 := g (rtCriticQ2Call r a1 a2)
     let a3 := g (rtAuthorA3Call doc q3)
     let m3 := g (rtCloseCall title a3)
     review_dialogue_node (pureOracle g) s
       = .ok ({ review_dialogue := some (String.intercalate "\n\n---\n\n"
                  ["**🎓 主持人 (Moderator):**\n" ++ m1,
                   "**⚔️ 方法论专家 (Critic):**\n" ++ q1,
                   "**🛡️ 论文作者 (Author):**\n" ++ a1,
                   "**🛠️ 应用实践者 (Practitioner):**\n" ++ q2,
                   "**🛡️ 论文作者 (Author):**\n" ++ a2,
                   "**🎓 主持人 (Moderator):**\n" ++ m2,
                   "**⚔️ 方法论专家 (Critic - 追问):**\n" ++ q3,
                   "**🛡️ 论文作者 (Author):**\n" ++ a3,
                   "**🎓 主持人 (Moderator - 总结):**\n" ++ m3]) },
              [rtOpenCall title, rtCriticQ1Call r, rtAuthorA1Call doc q1,
               rtPractitionerQCall r, rtAuthorA2Call doc q2,
               rtModFollowupCall title q1 q2, rtCriticQ2Call r a1 a2,
               rtAuthorA3Call doc q3, rtCloseCall title a3])) := by
  unfold review_dialogue_node
  rw [hrep]
  simp only [Option.getD_some]
  rw [if_neg hne, hrt]
  simp [roundTableDialogue, pureOracle]

/-- C7: with a non-empty final report and round-table mode enabled, the
dialogue node produces exactly nine labelled utterances in the fixed
persona order Moderator, Critic, Author, Practitioner, Author, Moderator,
Critic, Author, Moderator (one model call each); with an empty final
report it returns the fixed cannot-review string and performs zero model
calls. -/
theorem roundtable_nine_utterances (g : LLMCall → String) (llm : Oracle)
    (s t : AgentState) (r : String)
    (hrep : s.final_report = some r) (hne : r ≠ "")
    (hrt : s.enable_round_table = some true)
    (hempty : (t.final_report).getD "" = "") :
    (let title := (((s.metadata).getD []).lookup "Title").getD "Untitled Paper"
     let doc := (s.doc_content).getD ""
     let m1 := g (rtOpenCall title)
     let q1 := g (rtCriticQ1Call r)
     let a1 := g (rtAuthorA1Call doc q1)
     let q2 := g (rtPractitionerQCall r)
     let a2 := g (rtAuthorA2Call doc q2)
     let m2 := g (rtModFollowupCall title q1 q2)
     let q3 := g (rtCriticQ2Call r a1 a2)
     let a3 := g (rtAuthorA3Call doc q3)
     let m3 := g (rtCloseCall title a3)
     review_dialogue_node (pureOracle g) s
       = .ok ({ review_dialogue := some (String.intercalate "\n\n---\n\n"
                  ["**🎓 主持人 (Moderator):**\n" ++ m1,
                   "**⚔️ 方法论专家 (Critic):**\n" ++ q1,
                   "**🛡️ 论文作者 (Author):**\n" ++ a1,
                   "**🛠️ 应用实践者 (Practitioner):**\n" ++ q2,
                   "**🛡️ 论文作者 (Author):**\n" ++ a2,
                   "**🎓 主持人 (Moderator):**\n" ++ m2,
                   "**⚔️ 方法论专家 (Critic - 追问):**\n" ++ q3,
                   "**🛡️ 论文作者 (Author):**\n" ++ a3,
                   "**🎓 主持人 (Moderator - 总结):**\n" ++ m3]) },
              [rtOpenCall title, rtCriticQ1Call r, rtAuthorA1Call doc q1,
               rtPractitionerQCall r, rtAuthorA2Call doc q2,
               rtModFollowupCall title q1 q2, rtCriticQ2Call r a1 a2,
               rtAuthorA3Call doc q3, rtCloseCall title a3]))
    ∧ (∀ title doc q1 a1 a2 q2 q3 a3,
        ([rtOpenCall title, rtCriticQ1Call r, rtAuthorA1Call doc q1,
          rtPractitionerQCall r, rtAuthorA2Call doc q2,
          rtModFollowupCall title q1 q2, rtCriticQ2Call r a1 a2,
          rtAuthorA3Call doc q3, rtCloseCall title a3].map LLMCall.prompt)
          = [.moderator, .critic, .author, .practitioner, .author,
             .moderator, .critic, .author, .moderator])
    ∧ review_dialogue_node llm t
        = .ok ({ review_dialogue := some "无法进行对话评审：未生成最终报告。" }, []) := by
  refine ⟨?_, ?_, ?_⟩
  · exact review_dialogue_roundtable_spec g s r hrep hne (by rw [hrt]; rfl)
  · intro title doc q1 a1 a2 q2 q3 a3
    rfl
  · unfold review_dialogue_node
    rw [hempty]
    rfl

/-- Witness for C7 at a concrete report and a backend answering "OUT". -/
theorem roundtable_nine_utterances_witness :
    c7_state.final_report = some "REPORT"
    ∧ c7_state.enable_round_table = some true
    ∧ ((init_state "s" none none none).final_report).getD "" = ""
    ∧ review_dialogue_node oOut (init_state "s" none none none)
        = .ok ({ review_dialogue := some "无法进行对话评审：未生成最终报告。" }, []) :=
  ⟨rfl, rfl, rfl,
   (roundtable_nine_utterances (fun _ => "OUT") oOut c7_state
      (init_state "s" none none none) "REPORT" rfl (by decide) rfl rfl).2.2⟩

/-- C10: when `enable_round_table` is absent from the state, the dialogue
node behaves exactly as with the flag set to true — it runs the
four-persona round table, whose persona-call sequence differs from the
simple reader/author variant — even though the interactive caller's UI
checkbox for round-table mode defaults to false. -/
theorem roundtable_flag_default_mismatch (llm : Oracle) (g : LLMCall → String)
    (s : AgentState) (r : String)
    (hflag : s.enable_round_table = none)
    (hrep : s.final_report = some r) (hne : r ≠ "") :
    review_dialogue_node llm s
      = review_dialogue_node llm { s with enable_round_table := some true }
    ∧ app_enable_round_table_default = false
    ∧ (∃ u calls, review_dialogue_node (pureOracle g) s = .ok (u, calls)
        ∧ calls.map LLMCall.prompt
          = [.moderator, .critic, .author, .practitioner, .author,
             .moderator, .critic, .author, .moderator])
    ∧ ([PromptId.moderator, .critic, .author, .practitioner, .author,
        .moderator, .critic, .author, .moderator]
        ≠ [PromptId.reader, .simpleAuthor, .reader, .simpleAuthor, .reader,
           .simpleAuthor, .reader, .simpleAuthor, .reader]) := by
  refine ⟨?_, rfl, ?_, by decide⟩
  · unfold review_dialogue_node
    rw [hflag]
    rfl
  · refine ⟨_, _, review_dialogue_roundtable_spec g s r hrep hne (by rw [hflag]; rfl), ?_⟩
    rfl

/-- Witness for C10: with the flag absent the node equals its
flag-set-to-true variant, and the UI checkbox default is false. -/
theorem roundtable_flag_default_mismatch_witness :
    c10_state.enable_round_table = none
    ∧ review_dialogue_node oOut c10_state
      = review_dialogue_node oOut { c10_state with enable_round_table := some true }
    ∧ app_enable_round_table_default = false :=
  ⟨rfl,
   (roundtable_flag_default_mismatch oOut (fun _ => "OUT") c10_state "REPORT"
      rfl rfl (by decide)).1,
   (roundtable_flag_default_mismatch oOut (fun _ => "OUT") c10_state "REPORT"
      rfl rfl (by decide)).2.1⟩

/-- Helper: every chunk produced by the splitter model has at most `size`
characters. -/
theorem chunkCharsAux_length_le (size stride : Nat) (hst : 0 < stride) :
    ∀ (fuel : Nat) (cs : List Char), cs.length ≤ fuel →
      ∀ c ∈ chunkCharsAux size stride fuel cs, c.length ≤ size := by
  intro fuel
  induction fuel with
  | zero =>
    intro cs hfuel c hc
    have hnil : cs = [] := List.eq_nil_of_length_eq_zero (Nat.le_zero.mp hfuel)
    subst hnil
    simp [chunkCharsAux] at hc
  | succ n ih =>
    intro cs hfuel c hc
    cases cs with
    | nil => simp [chunkCharsAux] at hc
    | cons a as =>
      simp only [chunkCharsAux] at hc
      by_cases hle : (a :: as).length ≤ size
      · rw [if_pos hle] at hc
        simp only [List.mem_singleton] at hc
        subst hc
        exact hle
      · rw [if_neg hle] at hc
        simp only [List.mem_cons] at hc
        rcases hc with hc | hc
        · subst hc
          exact List.length_take_le size (a :: as)
        · refine ih ((a :: as).drop stride) ?_ c hc
          rw [List.length_drop]
          have := hfuel
          omega

/-- Helper: consecutive chunks overlap — each successor chunk's first
`size - stride` characters are exactly the characters of its predecessor
from position `stride` on. -/
theorem chunkCharsAux_chain_overlap (size stride : Nat) (hst : stride ≤ size)
    (hst0 : 0 < stride) :
    ∀ (fuel : Nat) (cs : List Char), cs.length ≤ fuel →
      List.Chain' (fun a b => b.take (size - stride) = a.drop stride)
        (chunkCharsAux size stride fuel cs) := by
  intro fuel
  induction fuel with
  | zero =>
    intro cs hfuel
    have hnil : cs = [] := List.eq_nil_of_length_eq_zero (Nat.le_zero.mp hfuel)
    subst hnil
    simp [chunkCharsAux]
  | succ n ih =>
    intro cs hfuel
    cases cs with
    | nil => simp [chunkCharsAux]
    | cons a as =>
      simp only [chunkCharsAux]
      by_cases hle : (a :: as).length ≤ size
      · rw [if_pos hle]
        simp
      · rw [if_neg hle]
        have hfuel2 : ((a :: as).drop stride).length ≤ n := by
          rw [List.length_drop]
          omega
        refine List.chain'_cons'.mpr ⟨?_, ih ((a :: as).drop stride) hfuel2⟩
        intro y hy
        cases n with
        | zero =>
          have : (a :: as).drop stride = [] :=
            List.eq_nil_of_length_eq_zero (Nat.le_zero.mp hfuel2)
          rw [this] at hy
          simp [chunkCharsAux] at hy
        | succ m =>
          cases hdrop : (a :: as).drop stride with
          | nil =>
            rw [hdrop] at hy
            simp [chunkCharsAux] at hy
          | cons b bs =>
            rw [hdrop] at hy
            simp only [chunkCharsAux] at hy
            by_cases hle2 : (b :: bs).length ≤ size
            · rw [if_pos hle2] at hy
              simp only [List.head?_cons, Option.mem_def, Option.some.injEq] at hy
              subst hy
              rw [← hdrop, List.drop_take]
            · rw [if_neg hle2] at hy
              simp only [List.head?_cons, Option.mem_def, Option.some.injEq] at hy
              subst hy
              rw [← hdrop, List.take_take, List.drop_take,
                Nat.min_eq_left (Nat.sub_le size stride)]

/-- Helper: a non-raising backend lets `chain.batch` return every chunk
result in order. -/
theorem batchInvoke_pure (g : LLMCall → String) (calls : List LLMCall) :
    batchInvoke (pureOracle g) calls = .ok (calls.map g) := by
  induction calls with
  | nil => rfl
  | cons c cs ih => simp [batchInvoke, pureOracle, ih]

/-- C4: in full-translation mode the node splits the text with the literal
parameters chunk size 4000 / overlap 200 (every chunk at most 4000
characters, consecutive chunks overlapping per the 3800-character stride),
passes the one glossary string — extracted from the first 10000 characters
— byte-identically to every chunk call, and concatenates the chunk
translations in original chunk order prefixed by the glossary table. -/
theorem full_translation_glossary_consistency (g : LLMCall → String) (s : AgentState)
    (t : String) (hdoc : s.doc_content = some t) (hne : t ≠ "")
    (hfull : s.is_full_translation = some true) :
    (let gl := g (glossaryCall t)
     let chunks := split_text 4000 200 t
     let batch := chunks.map (fun c => fullTranslationCall c gl)
     translate_node (pureOracle g) s
       = .ok ({ translation := some ("### 术语对照表 (Glossary)\n" ++ gl
                  ++ "\n\n---\n\n### 全文翻译\n\n"
                  ++ String.intercalate "\n\n"
                      (chunks.map (fun c => g (fullTranslationCall c gl)))) },
              glossaryCall t :: batch)
     ∧ (glossaryCall t).slots = [("text", strTake t 10000)]
     ∧ (∀ c ∈ batch, c.slots.lookup "glossary" = some gl)
     ∧ (∀ c ∈ chunks, c.length ≤ 4000)
     ∧ List.Chain' (fun a b => b.toList.take 200 = a.toList.drop 3800) chunks) := by
  refine ⟨?_, rfl, ?_, ?_, ?_⟩
  · unfold translate_node
    rw [hdoc]
    simp only [Option.getD_some]
    rw [if_neg hne, hfull]
    simp only [Option.getD_some, if_true]
    simp [pureOracle, batchInvoke_pure]
    rfl
  · intro c hc
    simp only [List.mem_map] at hc
    rcases hc with ⟨chunk, _, hch⟩
    subst hch
    rfl
  · intro c hc
    simp only [split_text, List.mem_map] at hc
    rcases hc with ⟨cs, hcs, hch⟩
    subst hch
    have := chunkCharsAux_length_le 4000 3800 (by omega) t.length t.toList
      (Nat.le_of_eq rfl) cs hcs
    simpa using this
  · simp only [split_text]
    refine List.chain'_map_of_chain' List.asString ?_
      (chunkCharsAux_chain_overlap 4000 3800 (by omega) (by omega) t.length t.toList
        (Nat.le_of_eq rfl))
    intro a b hab
    simpa using hab

/-- Witness for C4 on a short document: one chunk, one glossary call, the
glossary prefixed to the joined translation. -/
theorem full_translation_glossary_consistency_witness :
    c4_state.doc_content = some "hello world"
    ∧ c4_state.is_full_translation = some true
    ∧ translate_node (pureOracle (fun _ => "X")) c4_state
      = .ok ({ translation := some ("### 术语对照表 (Glossary)\nX"
                 ++ "\n\n---\n\n### 全文翻译\n\nX") },
             [glossaryCall "hello world", fullTranslationCall "hello world" "X"]) :=
  ⟨rfl, rfl,
   (full_translation_glossary_consistency (fun _ => "X") c4_state "hello world"
      rfl (by decide) rfl).1⟩

/-- Helper: every successful result of the related-work search body writes
only the `related_work_search` field. -/
theorem relatedWorkSearchBody_frame (env : SearchEnv) (llm : Oracle) (title : String)
    (u : StateUpdate) (calls : List LLMCall) (queries : List SearchCall)
    (h : relatedWorkSearchBody env llm title = .ok (u, calls, queries)) :
    writesOnly u [.related_work_search] = true := by
  unfold relatedWorkSearchBody at h
  dsimp only at h
  split at h
  · split at h <;>
      (simp only [Except.ok.injEq, Prod.mk.injEq] at h
       obtain ⟨hu, hc⟩ := h
       subst hu
       rfl)
  · extract_lets at h
    split at h <;>
      (simp only [Except.ok.injEq, Prod.mk.injEq] at h
       obtain ⟨hu, hc⟩ := h
       subst hu
       rfl)

/-- Helper: `allNodes` enumerates every workflow node. -/
theorem mem_allNodes (n : NodeName) : n ∈ allNodes := by
  cases n <;> simp [allNodes]

/-- C3: every completion-event sequence admitted by the workflow graph has
exactly 8 events; for every interleaving of task completion order, the
`generate_report` event is strictly after all five task events and the
`review_dialogue` event strictly after `generate_report`; the sequence is
finite and its last event is `review_dialogue`. -/
theorem engine_eight_events_barrier (tr : List NodeName) (h : validTrace tr) :
    tr.length = 8
    ∧ (∀ t ∈ fanout_tasks, tr.indexOf t < tr.indexOf NodeName.generate_report)
    ∧ tr.indexOf NodeName.generate_report < tr.indexOf NodeName.review_dialogue
    ∧ tr.indexOf NodeName.review_dialogue = 7
    ∧ tr.getLast? = some NodeName.review_dialogue := by
  obtain ⟨hnd, hall, hedge⟩ := h
  have hmem : ∀ n : NodeName, n ∈ tr := fun n => hall n (mem_allNodes n)
  have hlen : tr.length = 8 := by
    have h1 : List.Subperm tr allNodes := hnd.subperm (fun n _ => mem_allNodes n)
    have h2 : List.Subperm allNodes tr :=
      (by decide : allNodes.Nodup).subperm (fun n hn => hall n hn)
    have l1 := h1.length_le
    have l2 := h2.length_le
    have l3 : allNodes.length = 8 := rfl
    omega
  have hrd : tr.indexOf NodeName.generate_report < tr.indexOf NodeName.review_dialogue :=
    hedge (.generate_report, .review_dialogue) (by decide)
  have hfan : ∀ t ∈ fanout_tasks, tr.indexOf t < tr.indexOf NodeName.generate_report := by
    intro t ht
    simp only [fanout_tasks, List.mem_cons] at ht
    rcases ht with rfl | rfl | rfl | rfl | rfl | ht
    · exact hedge (.translate, .generate_report) (by decide)
    · exact hedge (.extract_key_points, .generate_report) (by decide)
    · exact hedge (.extract_experiments, .generate_report) (by decide)
    · exact hedge (.explain_terms, .generate_report) (by decide)
    · exact hedge (.related_work_search, .generate_report) (by decide)
    · simp at ht
  have hall_lt : ∀ n : NodeName, n ≠ .review_dialogue →
      tr.indexOf n < tr.indexOf NodeName.review_dialogue := by
    intro n hn
    cases n with
    | load_paper =>
      exact lt_trans (lt_trans (hedge (.load_paper, .translate) (by decide))
        (hedge (.translate, .generate_report) (by decide))) hrd
    | translate => exact lt_trans (hedge (.translate, .generate_report) (by decide)) hrd
    | extract_key_points =>
      exact lt_trans (hedge (.extract_key_points, .generate_report) (by decide)) hrd
    | extract_experiments =>
      exact lt_trans (hedge (.extract_experiments, .generate_report) (by decide)) hrd
    | explain_terms =>
      exact lt_trans (hedge (.explain_terms, .generate_report) (by decide)) hrd
    | related_work_search =>
      exact lt_trans (hedge (.related_work_search, .generate_report) (by decide)) hrd
    | generate_report => exact hrd
    | review_dialogue => exact absurd rfl hn
  have h7 : 7 ≤ tr.indexOf NodeName.review_dialogue := by
    have hinj : Set.InjOn (fun n => tr.indexOf n)
        ({.load_paper, .translate, .extract_key_points, .extract_experiments,
          .explain_terms, .related_work_search, .generate_report} : Finset NodeName) := by
      intro a _ b _ hab
      exact (List.indexOf_inj (hmem a) (hmem b)).mp hab
    have himg : ({.load_paper, .translate, .extract_key_points, .extract_experiments,
          .explain_terms, .related_work_search, .generate_report} : Finset NodeName).image
          (fun n => tr.indexOf n)
        ⊆ Finset.range (tr.indexOf NodeName.review_dialogue) := by
      intro i hi
      simp only [Finset.mem_image] at hi
      rcases hi with ⟨n, hnF, rfl⟩
      rw [Finset.mem_range]
      refine hall_lt n ?_
      intro hcontra
      subst hcontra
      revert hnF
      decide
    have hcard := Finset.card_le_card himg
    rw [Finset.card_image_of_injOn hinj, Finset.card_range] at hcard
    have hF7 : ({.load_paper, .translate, .extract_key_points, .extract_experiments,
          .explain_terms, .related_work_search, .generate_report} : Finset NodeName).card = 7 := by
      decide
    omega
  have hlt8 : tr.indexOf NodeName.review_dialogue < 8 :=
    hlen ▸ List.indexOf_lt_length.mpr (hmem _)
  have hidx : tr.indexOf NodeName.review_dialogue = 7 := by omega
  refine ⟨hlen, hfan, hrd, hidx, ?_⟩
  have h7lt : tr.indexOf NodeName.review_dialogue < tr.length := by omega
  have hget := List.indexOf_get h7lt
  rw [List.get_eq_getElem] at hget
  rw [List.getLast?_eq_getElem? tr, hlen]
  have h7lt2 : 8 - 1 < tr.length := by omega
  rw [List.getElem?_eq_getElem h7lt2]
  have h8 : tr[(8 : Nat) - 1] = NodeName.review_dialogue := by
    simpa [hidx] using hget
  rw [h8]

/-- Witness for C3 at a concrete out-of-declaration-order interleaving of
the five fan-out tasks. -/
theorem engine_eight_events_barrier_witness :
    validTrace trace1
    ∧ (trace1.length = 8
       ∧ (∀ t ∈ fanout_tasks, trace1.indexOf t < trace1.indexOf NodeName.generate_report)
       ∧ trace1.indexOf NodeName.generate_report < trace1.indexOf NodeName.review_dialogue
       ∧ trace1.indexOf NodeName.review_dialogue = 7
       ∧ trace1.getLast? = some NodeName.review_dialogue) :=
  ⟨by decide, engine_eight_events_barrier trace1 (by decide)⟩

set_option maxHeartbeats 800000 in
/-- C9: every node returns a partial update containing only the field(s)
it owns (loader: doc_content/metadata/figures; each task node its single
output field; synthesizer: final_report; dialogue: review_dialogue); in
particular no node ever writes `source`, so the engine's merge preserves
the caller-set `source` across any sequence of node updates. -/
theorem nodes_write_only_owned_fields :
    (∀ (loader : Loader) (s : AgentState),
      writesOnly (load_paper_node loader s) [.doc_content, .metadata, .figures] = true)
    ∧ (∀ (llm : Oracle) (s : AgentState) (u : StateUpdate) (calls : List LLMCall),
        translate_node llm s = .ok (u, calls) → writesOnly u [.translation] = true)
    ∧ (∀ (llm : Oracle) (s : AgentState) (u : StateUpdate) (calls : List LLMCall),
        extract_key_points_node llm s = .ok (u, calls) → writesOnly u [.key_points] = true)
    ∧ (∀ (llm : Oracle) (s : AgentState) (u : StateUpdate) (calls : List LLMCall),
        extract_experiments_node llm s = .ok (u, calls) → writesOnly u [.experiments] = true)
    ∧ (∀ (llm : Oracle) (s : AgentState) (u : StateUpdate) (calls : List LLMCall),
        explain_terms_node llm s = .ok (u, calls) → writesOnly u [.terms] = true)
    ∧ (∀ (env : SearchEnv) (llm : Oracle) (s : AgentState) (u : StateUpdate)
        (calls : List LLMCall) (queries : List SearchCall),
        related_work_search_node env llm s = .ok (u, calls, queries) →
          writesOnly u [.related_work_search] = true)
    ∧ (∀ (llm : Oracle) (s : AgentState) (u : StateUpdate) (calls : List LLMCall),
        generate_report_node llm s = .ok (u, calls) → writesOnly u [.final_report] = true)
    ∧ (∀ (llm : Oracle) (s : AgentState) (u : StateUpdate) (calls : List LLMCall),
        review_dialogue_node llm s = .ok (u, calls) → writesOnly u [.review_dialogue] = true)
    ∧ (∀ (s : AgentState) (us : List StateUpdate),
        (∀ u ∈ us, u.source = none) → (us.foldl apply_update s).source = s.source) := by
  refine ⟨?_, ?_, ?_, ?_, ?_, ?_, ?_, ?_, ?_⟩
  · intro loader s
    simp only [load_paper_node]
    rcases loader s.source ((s.use_vlm_parsing).getD false) with e | ⟨text, md, figs⟩ <;> rfl
  · intro llm s u calls h
    unfold translate_node at h
    dsimp only at h
    repeat' split at h
    all_goals
      first
      | (simp only [Except.ok.injEq, Prod.mk.injEq] at h
         obtain ⟨hu, hc⟩ := h
         subst hu
         rfl)
      | simp at h
  · intro llm s u calls h
    unfold extract_key_points_node at h
    dsimp only at h
    repeat' split at h
    all_goals
      first
      | (simp only [Except.ok.injEq, Prod.mk.injEq] at h
         obtain ⟨hu, hc⟩ := h
         subst hu
         rfl)
      | simp at h
  · intro llm s u calls h
    unfold extract_experiments_node at h
    dsimp only at h
    repeat' split at h
    all_goals
      first
      | (simp only [Except.ok.injEq, Prod.mk.injEq] at h
         obtain ⟨hu, hc⟩ := h
         subst hu
         rfl)
      | simp at h
  · intro llm s u calls h
    unfold explain_terms_node at h
    dsimp only at h
    repeat' split at h
    all_goals
      first
      | (simp only [Except.ok.injEq, Prod.mk.injEq] at h
         obtain ⟨hu, hc⟩ := h
         subst hu
         rfl)
      | simp at h
  · intro env llm s u calls queries h
    unfold related_work_search_node at h
    dsimp only at h
    split at h
    · split at h
      · simp only [Except.ok.injEq, Prod.mk.injEq] at h
        obtain ⟨hu, hc⟩ := h
        subst hu
        rfl
      · exact relatedWorkSearchBody_frame _ _ _ _ _ _ h
    · exact relatedWorkSearchBody_frame _ _ _ _ _ _ h
  · intro llm s u calls h
    unfold generate_report_node at h
    repeat' split at h
    all_goals
      first
      | (simp only [Except.ok.injEq, Prod.mk.injEq] at h
         obtain ⟨hu, hc⟩ := h
         subst hu
         rfl)
      | simp at h
  · intro llm s u calls h
    unfold review_dialogue_node at h
    dsimp only at h
    repeat' split at h
    all_goals
      first
      | (simp only [Except.ok.injEq, Prod.mk.injEq] at h
         obtain ⟨hu, hc⟩ := h
         subst hu
         rfl)
      | simp at h
  · intro s us hsrc
    induction us generalizing s with
    | nil => rfl
    | cons u rest ih =>
      rw [List.foldl_cons]
      rw [ih (apply_update s u) (fun v hv => hsrc v (List.mem_cons_of_mem u hv))]
      have h0 := hsrc u (List.mem_cons_self u rest)
      simp [apply_update, h0]

/-- Witness for C9: the degraded load update writes only its three owned
fields, the empty-content translate update writes only `translation`, and
merging a source-free update preserves the caller's `source`. -/
theorem nodes_write_only_owned_fields_witness :
    writesOnly (load_paper_node failing_loader c1_init)
      [.doc_content, .metadata, .figures] = true
    ∧ writesOnly ({ translation := some "No content to translate." } : StateUpdate)
      [.translation] = true
    ∧ (([({ doc_content := some "d" } : StateUpdate)]).foldl apply_update c1_init).source
      = c1_init.source :=
  ⟨nodes_write_only_owned_fields.1 failing_loader c1_init,
   nodes_write_only_owned_fields.2.1 oOut (init_state "s" none none none) _ [] rfl,
   nodes_write_only_owned_fields.2.2.2.2.2.2.2.2 c1_init [{ doc_content := some "d" }]
     (by intro u hu; simp only [List.mem_singleton] at hu; subst hu; rfl)⟩

end SourceMind
